import Mathlib

/-!
Verification of the event-logging component of the Code Wizard repository
(`src/streamlit_logger.py`), a shallow embedding of the `StreamlitLogger`
class and its JSON-safe serialization pipeline.

The embedding models:
  * JSON values and the exact textual rendering produced by Python's
    `json.dumps` with its default separators;
  * Python run-time values that can appear in a log record (`PyVal`),
    including datetimes and arbitrary objects whose `str()` may fail;
  * the custom `SafeJsonEncoder.default` hook and `_safe_json_dump`;
  * `_prepare_log_data`, `log_event`, `log_user_action`, `log_error`,
    with Python exceptions modelled by `Except PyErr`;
  * logger construction (`__init__`) with its directory-creation and
    handler-setup steps;
  * a heap-level rendering of `_prepare_log_data` for the frame property
    that the caller's metadata dictionary is never mutated;
  * size-based log rotation (modelled from the spec, since
    `RotatingFileHandler` is standard-library code outside this repository).
-/

namespace StreamlitLog

/-- JSON document AST, the shape of values `json.dumps` can emit. -/
inductive Json where
  | str (s : String)
  | num (n : Int)
  | bool (b : Bool)
  | null
  | arr (xs : List Json)
  | obj (fields : List (String × Json))

/-- Lowercase hexadecimal digit, as Python uses in `\uXXXX` escapes. -/
def hexDigit (n : Nat) : Char :=
  if n < 10 then Char.ofNat (48 + n) else Char.ofNat (87 + n)

/-- Four lowercase hex digits of a value below 0x10000. -/
def hex4 (n : Nat) : String :=
  String.mk [hexDigit (n / 4096 % 16), hexDigit (n / 256 % 16),
             hexDigit (n / 16 % 16), hexDigit (n % 16)]

/-- Escaping of one character inside a JSON string literal, following
`json.dumps` with `ensure_ascii=True` (the source passes no override):
the two-character escapes, `\uXXXX` for other control characters, and
`\uXXXX` (with surrogate pairs beyond the BMP) for non-ASCII. -/
def escapeChar (c : Char) : String :=
  if c = '"' then "\\\""
  else if c = '\\' then "\\\\"
  else if c = '\n' then "\\n"
  else if c = '\t' then "\\t"
  else if c = '\r' then "\\r"
  else if c = Char.ofNat 8 then "\\b"
  else if c = Char.ofNat 12 then "\\f"
  else if c.toNat < 32 then "\\u" ++ hex4 c.toNat
  else if c.toNat < 127 then String.singleton c
  else if c.toNat < 65536 then "\\u" ++ hex4 c.toNat
  else
    let v := c.toNat - 65536
    "\\u" ++ hex4 (55296 + v / 1024) ++ "\\u" ++ hex4 (56320 + v % 1024)

/-- JSON string literal for `s`, double-quoted and escaped. -/
def encString (s : String) : String :=
  "\"" ++ String.join (s.data.map escapeChar) ++ "\""

mutual

/-- Textual rendering of a JSON value exactly as `json.dumps` prints it
(default separators `", "` and `": "`, no indent). -/
def Json.render : Json → String
  | .str s => encString s
  | .num n => toString n
  | .bool b => cond b "true" "false"
  | .null => "null"
  | .arr xs => "[" ++ Json.renderArr xs ++ "]"
  | .obj es => "\x7b" ++ Json.renderObj es ++ "\x7d"

/-- Comma-separated rendering of array elements. -/
def Json.renderArr : List Json → String
  | [] => ""
  | [x] => Json.render x
  | x :: y :: rest => Json.render x ++ ", " ++ Json.renderArr (y :: rest)

/-- Comma-separated rendering of object members, `"key": value`. -/
def Json.renderObj : List (String × Json) → String
  | [] => ""
  | [(k, v)] => encString k ++ ": " ++ Json.render v
  | (k, v) :: e :: rest =>
      encString k ++ ": " ++ Json.render v ++ ", " ++ Json.renderObj (e :: rest)

end

/-- A Python dictionary key as seen by `json.dumps`: either a string key,
or a key of a type the encoder rejects (`keys must be str, int, float,
bool or None`); `bad` carries the offending type's name.  The `default`
hook is never consulted for keys, so such a key makes the whole dump
raise `TypeError`. -/
inductive PyKey where
  | str (s : String)
  | bad (tyName : String)
deriving DecidableEq, Repr

/-- Python run-time values that can appear in a log record.  `datetime`
carries the string its `isoformat()` returns; `obj` is any other
non-JSON-native object, carrying `some s` when `str(obj)` returns `s`
and `none` when `str(obj)` itself raises. -/
inductive PyVal where
  | str (s : String)
  | int (n : Int)
  | bool (b : Bool)
  | none
  | datetime (iso : String)
  | obj (strRepr : Option String)
  | list (xs : List PyVal)
  | dict (entries : List (PyKey × PyVal))

/-- `SafeJsonEncoder.default` (src/streamlit_logger.py lines 11-17) on a
non-native object: a datetime becomes its `isoformat()`, any other object
its `str()`, and if that conversion raises, the literal
`"<not serializable>"`. -/
def SafeJsonEncoder.default : PyVal → String
  | .datetime iso => iso
  | .obj (Option.some s) => s
  | .obj Option.none => "<not serializable>"
  | _ => ""

mutual

/-- `json.dumps(·, cls=SafeJsonEncoder)` factored through the AST: native
values map to their JSON counterparts, datetimes and foreign objects go
through `SafeJsonEncoder.default`, and a non-string dictionary key makes
the whole encoding fail with the `TypeError` message `dumps` raises. -/
def jsonOfPyVal : PyVal → Except String Json
  | .str s => .ok (.str s)
  | .int n => .ok (.num n)
  | .bool b => .ok (.bool b)
  | .none => .ok .null
  | .datetime iso => .ok (.str (SafeJsonEncoder.default (.datetime iso)))
  | .obj r => .ok (.str (SafeJsonEncoder.default (.obj r)))
  | .list xs =>
      match jsonOfList xs with
      | .ok js => .ok (.arr js)
      | .error e => .error e
  | .dict es =>
      match jsonOfEntries es with
      | .ok fs => .ok (.obj fs)
      | .error e => .error e

/-- Elementwise encoding of a Python list. -/
def jsonOfList : List PyVal → Except String (List Json)
  | [] => .ok []
  | v :: vs =>
      match jsonOfPyVal v with
      | .error e => .error e
      | .ok j =>
          match jsonOfList vs with
          | .error e => .error e
          | .ok js => .ok (j :: js)

/-- Entrywise encoding of a Python dict; a non-string key aborts with
the `TypeError` message `json.dumps` produces. -/
def jsonOfEntries : List (PyKey × PyVal) → Except String (List (String × Json))
  | [] => .ok []
  | (PyKey.bad ty, _) :: _ =>
      .error ("keys must be str, int, float, bool or None, not " ++ ty)
  | (PyKey.str k, v) :: es =>
      match jsonOfPyVal v with
      | .error e => .error e
      | .ok j =>
          match jsonOfEntries es with
          | .error e => .error e
          | .ok fs => .ok ((k, j) :: fs)

end

/-- `StreamlitLogger._safe_json_dump` (lines 96-104): dump the record,
and if encoding raises, dump the minimal fallback record
`{'error': 'JSON serialization failed', 'message': str(e)}` instead. -/
def _safe_json_dump (data : PyVal) : String :=
  match jsonOfPyVal data with
  | .ok j => Json.render j
  | .error e =>
      Json.render (.obj [("error", .str "JSON serialization failed"),
                         ("message", .str e)])

/-- Zero-padded decimal rendering of `n` to width `w`. -/
def padZ (w n : Nat) : String :=
  let s := toString n
  String.mk (List.replicate (w - s.length) '0') ++ s

/-- The moment `datetime.now()` returns, as a broken-down local time. -/
structure PyDateTime where
  year : Nat
  month : Nat
  day : Nat
  hour : Nat
  minute : Nat
  second : Nat
  micro : Nat
deriving DecidableEq, Repr

/-- `datetime.isoformat()`: `YYYY-MM-DDTHH:MM:SS[.ffffff]`, the
microsecond part omitted when zero. -/
def PyDateTime.isoformat (d : PyDateTime) : String :=
  padZ 4 d.year ++ "-" ++ padZ 2 d.month ++ "-" ++ padZ 2 d.day ++ "T" ++
  padZ 2 d.hour ++ ":" ++ padZ 2 d.minute ++ ":" ++ padZ 2 d.second ++
  (if d.micro = 0 then "" else "." ++ padZ 6 d.micro)

/-- `%(asctime)s` under the configured `datefmt='%Y-%m-%d %H:%M:%S'`
(src/streamlit_logger.py line 46). -/
def PyDateTime.asctime (d : PyDateTime) : String :=
  padZ 4 d.year ++ "-" ++ padZ 2 d.month ++ "-" ++ padZ 2 d.day ++ " " ++
  padZ 2 d.hour ++ ":" ++ padZ 2 d.minute ++ ":" ++ padZ 2 d.second

/-- A sink attached to the logger.  `file writable` is the rotating file
handler; `writable = false` models an unavailable file sink (the logging
module swallows handler emit errors, so a failed write produces no line
but raises nothing). -/
inductive Handler where
  | file (writable : Bool)
  | console
deriving DecidableEq, Repr

/-- The mutable state of the `logging.Logger` instance named `app_name`:
its effective level and attached handlers. -/
structure LoggerState where
  name : String
  level : Nat
  handlers : List Handler
deriving DecidableEq, Repr

/-- One formatted line handed to a working sink, with the numeric
severity it was dispatched at. -/
structure Emitted where
  sink : Handler
  sev : Nat
  text : String
deriving DecidableEq, Repr

/-- Observable effect of one public logging call: lines handed to sinks
plus raw `print(...)` output. -/
structure LogOutput where
  emitted : List Emitted
  printed : List String
deriving DecidableEq, Repr

/-- A raised Python exception, reduced to kind and `str(e)` message. -/
inductive PyErr where
  | typeError (msg : String)
  | osError (msg : String)
  | runtimeError (msg : String)
deriving DecidableEq, Repr

/-- `str(e)` of a caught exception. -/
def PyErr.str : PyErr → String
  | .typeError m => m
  | .osError m => m
  | .runtimeError m => m

/-- severity name used by `%(levelname)s`. -/
def levelName (sev : Nat) : String :=
  if sev = 10 then "DEBUG"
  else if sev = 20 then "INFO"
  else if sev = 30 then "WARNING"
  else if sev = 40 then "ERROR"
  else if sev = 50 then "CRITICAL"
  else "Level " ++ toString sev

/-- One line produced by the configured formatter
`'%(asctime)s [%(levelname)s] %(name)s: %(message)s'`
(src/streamlit_logger.py lines 44-47); both sinks use it. -/
def formatLine (now : PyDateTime) (levelname name msg : String) : String :=
  now.asctime ++ " [" ++ levelname ++ "] " ++ name ++ ": " ++ msg

/-- Dispatch of one record at numeric severity `sev` through the logger:
if `sev` passes the logger's level, every attached handler formats and
writes the line; an unwritable file sink drops it silently (the logging
module catches emit errors internally). -/
def loggerEmit (L : LoggerState) (now : PyDateTime) (sev : Nat) (msg : String) :
    List Emitted :=
  if L.level ≤ sev then
    L.handlers.filterMap (fun h =>
      match h with
      | .file false => Option.none
      | _ => Option.some ⟨h, sev, formatLine now (levelName sev) L.name msg⟩)
  else []

/-- `level.lower()`: characterwise ASCII case folding, which is all the
attribute dispatch can distinguish. -/
def pyLower (s : String) : String :=
  String.mk (s.data.map Char.toLower)

/-- What `getattr(self.logger, name, default)` can resolve to:
a severity method; a callable that raises when applied to the single
message string (wrong arity, or a body that chokes on a `str` argument);
a callable that succeeds but logs nothing, so the event is silently
dropped; a non-callable data attribute (calling it raises `TypeError`);
or no attribute at all, in which case the `getattr` default applies. -/
inductive LoggerAttr where
  | sevMethod (sev : Nat)
  | methodNeedsArgs (errMsg : String)
  | callNoEmit
  | dataAttr (tyName : String)
  | absent

/-- Attribute resolution on CPython's `logging.Logger` restricted to
all-lowercase names — the only ones `level.lower()` (line 118) can
produce; attribute names containing an uppercase letter (`addHandler`,
`isEnabledFor`, `getChild`, ...) are unreachable.  The inventory follows
CPython 3.11's `Logger` (instance attributes, `Logger`/`Filterer`
methods, and the inherited dunders):
  * the severity methods, with `warn` an alias for WARNING and
    `exception` / `fatal` logging at ERROR / CRITICAL;
  * callables that raise when called with the one message string —
    `log`, `handle`, `_log`, and the dunder methods of wrong arity or
    which reject a `str` argument; `methodNeedsArgs`'s message
    approximates `str` of the raised exception, the load-bearing part
    being which path `log_event` then takes;
  * callables that return normally without logging anything, so the
    event is dropped with no output: `filter` (no filters attached),
    `__class__`, `__init__`, the default comparison dunders and
    `__subclasshook__` (`__init__` also re-initializes the logger, a
    side effect outside the modelled output);
  * non-callable data attributes — `name`, `level`, `parent`,
    `propagate`, `handlers`, `disabled`, `filters`, `manager`, `root`,
    `_cache`, `__dict__`, `__doc__`, `__module__`, `__weakref__` —
    whose call raises `TypeError`.
Only a name outside this inventory resolves to the `getattr` default. -/
def getattrLogger (name : String) : LoggerAttr :=
  if name = "debug" then .sevMethod 10
  else if name = "info" then .sevMethod 20
  else if name = "warning" then .sevMethod 30
  else if name = "warn" then .sevMethod 30
  else if name = "error" then .sevMethod 40
  else if name = "exception" then .sevMethod 40
  else if name = "critical" then .sevMethod 50
  else if name = "fatal" then .sevMethod 50
  else if name = "log" then .methodNeedsArgs "log() missing 1 required positional argument"
  else if name = "handle" then .methodNeedsArgs "str object has no attribute levelno"
  else if name = "_log" then .methodNeedsArgs "_log() missing 2 required positional arguments"
  else if name = "__format__" then .methodNeedsArgs "unsupported format string passed to Logger.__format__"
  else if name = "__getattribute__" then .methodNeedsArgs "Logger object has no such attribute"
  else if name = "__delattr__" then .methodNeedsArgs "Logger object has no such attribute"
  else if name = "__setattr__" then .methodNeedsArgs "__setattr__ expected 2 arguments"
  else if name = "__new__" then .methodNeedsArgs "Logger.__new__(X): X is not a type object"
  else if name = "__dir__" then .methodNeedsArgs "__dir__() takes no arguments"
  else if name = "__repr__" then .methodNeedsArgs "__repr__() takes no arguments"
  else if name = "__str__" then .methodNeedsArgs "__str__() takes no arguments"
  else if name = "__hash__" then .methodNeedsArgs "__hash__() takes no arguments"
  else if name = "__sizeof__" then .methodNeedsArgs "__sizeof__() takes no arguments"
  else if name = "__reduce__" then .methodNeedsArgs "__reduce__() takes no arguments"
  else if name = "__reduce_ex__" then .methodNeedsArgs "__reduce_ex__() takes exactly one argument"
  else if name = "__getstate__" then .methodNeedsArgs "__getstate__() takes no arguments"
  else if name = "__init_subclass__" then .methodNeedsArgs "__init_subclass__() takes no positional arguments"
  else if name = "filter" then .callNoEmit
  else if name = "__class__" then .callNoEmit
  else if name = "__init__" then .callNoEmit
  else if name = "__eq__" then .callNoEmit
  else if name = "__ne__" then .callNoEmit
  else if name = "__lt__" then .callNoEmit
  else if name = "__le__" then .callNoEmit
  else if name = "__gt__" then .callNoEmit
  else if name = "__ge__" then .callNoEmit
  else if name = "__subclasshook__" then .callNoEmit
  else if name = "name" then .dataAttr "str"
  else if name = "level" then .dataAttr "int"
  else if name = "parent" then .dataAttr "RootLogger"
  else if name = "propagate" then .dataAttr "bool"
  else if name = "handlers" then .dataAttr "list"
  else if name = "disabled" then .dataAttr "bool"
  else if name = "filters" then .dataAttr "list"
  else if name = "manager" then .dataAttr "Manager"
  else if name = "root" then .dataAttr "RootLogger"
  else if name = "_cache" then .dataAttr "dict"
  else if name = "__dict__" then .dataAttr "dict"
  else if name = "__doc__" then .dataAttr "str"
  else if name = "__module__" then .dataAttr "str"
  else if name = "__weakref__" then .dataAttr "NoneType"
  else .absent

/-- The exception a record passed to `log_error` reduces to:
`type(error).__name__` and `str(error)`. -/
structure PyExc where
  tyName : String
  msg : String
deriving DecidableEq, Repr

/-- `StreamlitLogger._prepare_log_data` (lines 72-94).  `metadata or {}`
yields the caller's mapping or an empty one; when an error is attached,
`traceback.format_exc()` — whose result, possibly a raised exception, is
the explicit `tbRes` argument — fills the `traceback` field. -/
def _prepare_log_data (now : PyDateTime) (event_type content : String)
    (metadata : Option (List (PyKey × PyVal)))
    (error : Option PyExc) (tbRes : Except PyErr String) :
    Except PyErr PyVal :=
  let base : List (PyKey × PyVal) :=
    [(.str "timestamp", .str now.isoformat),
     (.str "event_type", .str event_type),
     (.str "content", .str content),
     (.str "metadata", .dict (metadata.getD []))]
  match error with
  | Option.none => .ok (.dict base)
  | Option.some e =>
      match tbRes with
      | .error err => .error err
      | .ok tb =>
          .ok (.dict (base ++
            [(.str "error", .dict
               [(.str "type", .str e.tyName),
                (.str "message", .str e.msg),
                (.str "traceback", .str tb)])]))

/-- Body of the `try:` block of `log_event` (lines 114-119): prepare the
record, dump it, resolve `getattr(self.logger, level.lower(),
self.logger.info)` and call the result.  A resolution to a non-severity
attribute makes the call raise `TypeError`, which this body propagates. -/
def log_event_try (L : LoggerState) (now : PyDateTime)
    (event_type content : String) (metadata : Option (List (PyKey × PyVal)))
    (level : String) : Except PyErr LogOutput :=
  match _prepare_log_data now event_type content metadata Option.none (.ok "") with
  | .error e => .error e
  | .ok log_data =>
      let log_message := _safe_json_dump log_data
      match getattrLogger (pyLower level) with
      | .sevMethod s => .ok ⟨loggerEmit L now s log_message, []⟩
      | .methodNeedsArgs m => .error (.typeError m)
      | .callNoEmit => .ok ⟨[], []⟩
      | .dataAttr ty => .error (.typeError ("'" ++ ty ++ "' object is not callable"))
      | .absent => .ok ⟨loggerEmit L now 20 log_message, []⟩

/-- `StreamlitLogger.log_event` (lines 106-124): the `try:` body, with
any exception caught and downgraded to a `self.logger.error(...)` line
plus a console `print`. -/
def log_event_run (L : LoggerState) (now : PyDateTime)
    (event_type content : String) (metadata : Option (List (PyKey × PyVal)))
    (level : String) : Except PyErr LogOutput :=
  match log_event_try L now event_type content metadata level with
  | .ok out => .ok out
  | .error e =>
      .ok ⟨loggerEmit L now 40 ("Logging failed: " ++ e.str),
           ["Critical logging error: " ++ e.str]⟩

/-- The metadata dictionary `log_user_action` builds (lines 135-139):
`{'user_id': ..., 'session_id': ..., 'details': details or {}}`. -/
def uaMetadata (user_id session_id : String)
    (details : Option (List (PyKey × PyVal))) : List (PyKey × PyVal) :=
  [(.str "user_id", .str user_id),
   (.str "session_id", .str session_id),
   (.str "details", .dict (details.getD []))]

/-- `StreamlitLogger.log_user_action` (lines 126-146): builds the session
metadata and delegates to `log_event` with `event_type='user_action'`,
`content=action_type`; its own `except` downgrades any escaped exception
to a `logger.error` line. -/
def log_user_action_run (L : LoggerState) (now : PyDateTime)
    (action_type user_id session_id : String)
    (details : Option (List (PyKey × PyVal))) : Except PyErr LogOutput :=
  match log_event_run L now "user_action" action_type
      (Option.some (uaMetadata user_id session_id details)) "info" with
  | .ok out => .ok out
  | .error e =>
      .ok ⟨loggerEmit L now 40 ("Failed to log user action: " ++ e.str), []⟩

/-- `StreamlitLogger.log_error` (lines 148-165): prepares a record with
`event_type='error'`, `content=context` and the attached exception, and
emits it via `self.logger.error`; if anything inside raises (in
particular the `traceback.format_exc()` call inside
`_prepare_log_data`), the `except` swallows it and only prints a console
diagnostic — no record is emitted. -/
def log_error_run (L : LoggerState) (now : PyDateTime) (error : PyExc)
    (context : String) (metadata : Option (List (PyKey × PyVal)))
    (tbRes : Except PyErr String) : Except PyErr LogOutput :=
  match _prepare_log_data now "error" context metadata (Option.some error) tbRes with
  | .ok log_data => .ok ⟨loggerEmit L now 40 (_safe_json_dump log_data), []⟩
  | .error e => .ok ⟨[], ["Critical error logging failure: " ++ e.str]⟩

/-- Environment a construction runs in: whether
`os.makedirs(log_dir, exist_ok=True)` raises (read-only parent, line 34),
and whether opening the rotating file handler raises (lines 51-56). -/
structure InitEnv where
  makedirsFails : Bool
  fileSetupFails : Bool
deriving DecidableEq, Repr

/-- `StreamlitLogger.__init__` (lines 22-70) acting on the logger named
`app_name` whose previous state is `prev`: `os.makedirs` runs OUTSIDE any
`try`, so its failure propagates; otherwise the level is set, existing
handlers are cleared (`self.logger.handlers = []`, line 41), and the
`try` attaches file and console handlers, falling back to a console
handler alone when file setup raises. -/
def init_run (env : InitEnv) (logLevel : Nat) (prev : LoggerState) :
    Except PyErr LoggerState :=
  if env.makedirsFails then
    .error (.osError "cannot create log directory: permission denied")
  else
    let cleared : LoggerState := { name := prev.name, level := logLevel, handlers := [] }
    if env.fileSetupFails then
      .ok { cleared with handlers := cleared.handlers ++ [.console] }
    else
      .ok { cleared with handlers := cleared.handlers ++ [.file true, .console] }

/-- Is this handler the rotating file sink? -/
def isFileH : Handler → Bool
  | .file _ => true
  | .console => false

/-- Is this handler the console sink? -/
def isConsoleH : Handler → Bool
  | .console => true
  | _ => false

/-- Size/backup configuration of the rotating file sink
(`max_bytes`, `backup_count` of `__init__`). -/
structure RotConfig where
  maxBytes : Nat
  backupCount : Nat
deriving DecidableEq, Repr

/-- On-disk state of the rotating sink: the active file's contents and
the archived backups, newest first (`.1` at the head). -/
structure RotState where
  active : String
  backups : List String
deriving DecidableEq, Repr

/-- Modelled from the spec: rotation is performed by the standard
library's `RotatingFileHandler`, constructed at src/streamlit_logger.py
lines 51-56 but itself not code of this repository.  Per the spec, "when
the active file would exceed the configured maximum size, it is closed,
renamed/archived, and a fresh file is opened; at most the configured
number of archived files are retained, oldest discarded first" (rotation
disabled when the size bound is 0). -/
def rotWrite (cfg : RotConfig) (st : RotState) (line : String) : RotState :=
  if 0 < cfg.maxBytes ∧ cfg.maxBytes < st.active.length + line.length then
    { active := line, backups := (st.active :: st.backups).take cfg.backupCount }
  else
    { active := st.active ++ line, backups := st.backups }

/-- A whole sequence of writes through the rotating sink. -/
def rotWriteAll (cfg : RotConfig) (st : RotState) (lines : List String) : RotState :=
  lines.foldl (rotWrite cfg) st

/-- A value stored in a Python dictionary slot: either an immutable
value, or a reference to another heap-allocated dictionary. -/
inductive HVal where
  | prim (v : PyVal)
  | ref (a : Nat)

/-- A tiny Python heap of dictionaries, addressed by allocation order. -/
structure Heap where
  cells : List (List (String × HVal))

/-- Dictionary at address `a`, if allocated. -/
def Heap.get (h : Heap) (a : Nat) : Option (List (String × HVal)) :=
  h.cells[a]?

/-- Allocate a fresh dictionary, returning its address. -/
def Heap.alloc (h : Heap) (d : List (String × HVal)) : Heap × Nat :=
  (⟨h.cells ++ [d]⟩, h.cells.length)

/-- Python `d[k] = v`: overwrite in place when the key exists, else
append the new entry. -/
def dictSet (d : List (String × HVal)) (k : String) (v : HVal) :
    List (String × HVal) :=
  if d.any (fun kv => kv.1 = k) then
    d.map (fun kv => if kv.1 = k then (k, v) else kv)
  else d ++ [(k, v)]

/-- `h` with `d[k] = v` performed on the dictionary at address `a`. -/
def Heap.setItem (h : Heap) (a : Nat) (k : String) (v : HVal) : Heap :=
  ⟨h.cells.set a (dictSet (h.cells[a]?.getD []) k v)⟩

/-- The expression `metadata or {}` (line 84) at heap level: the caller's
dictionary is aliased when it is a non-empty mapping; `None` or an empty
mapping are falsy, so the literal `{}` allocates a fresh empty one. -/
def metaOrEmpty (h : Heap) (metaAddr : Option Nat) : Heap × HVal :=
  match metaAddr with
  | Option.none =>
      let p := h.alloc []
      (p.1, HVal.ref p.2)
  | Option.some a =>
      if ((h.get a).getD []).isEmpty then
        let p := h.alloc []
        (p.1, HVal.ref p.2)
      else (h, HVal.ref a)

/-- The conditional `log_data['error'] = {...}` statement (lines 87-92)
at heap level: allocate the error dictionary and store a reference to it
in the record at `logAddr`; without an error the heap is untouched. -/
def attachError (h : Heap) (logAddr : Nat) (error : Option (PyExc × String)) :
    Heap × Nat :=
  match error with
  | Option.none => (h, logAddr)
  | Option.some e =>
      let p := h.alloc
        [("type", .prim (.str e.1.tyName)),
         ("message", .prim (.str e.1.msg)),
         ("traceback", .prim (.str e.2))]
      (p.1.setItem logAddr "error" (.ref p.2), logAddr)

/-- Heap-level rendering of `_prepare_log_data` (lines 72-94), keeping
dictionary identity explicit: `metadata or {}` aliases or allocates the
metadata slot, the record itself is a freshly allocated dictionary, and
an attached error performs `log_data['error'] = {...}` on that fresh
dictionary only.  Returns the final heap and the record's address. -/
def prepare_log_data_heap (h : Heap) (now : PyDateTime)
    (event_type content : String) (metaAddr : Option Nat)
    (error : Option (PyExc × String)) : Heap × Nat :=
  let pMeta := metaOrEmpty h metaAddr
  let pLog := pMeta.1.alloc
    [("timestamp", .prim (.str now.isoformat)),
     ("event_type", .prim (.str event_type)),
     ("content", .prim (.str content)),
     ("metadata", pMeta.2)]
  attachError pLog.1 pLog.2 error

/-- Heap effect of a whole `log_event` call: only `_prepare_log_data`
touches the heap — `json.dumps` and the handler writes read it. -/
def log_event_heap (h : Heap) (now : PyDateTime)
    (event_type content : String) (metaAddr : Option Nat) : Heap :=
  (prepare_log_data_heap h now event_type content metaAddr Option.none).1

/-- Heap effect of a whole `log_error` call, likewise. -/
def log_error_heap (h : Heap) (now : PyDateTime) (error : PyExc)
    (context : String) (metaAddr : Option Nat) (tb : String) : Heap :=
  (prepare_log_data_heap h now "error" context metaAddr
    (Option.some (error, tb))).1

/-- Concrete logger fixture: the default configuration after a successful
construction — `getLogger('CodeWizard')` (only the log file's name is
lowercased, line 52), level INFO, file and console sinks. -/
def Lw : LoggerState := ⟨"CodeWizard", 20, [.file true, .console]⟩

/-- Concrete instant used to evaluate the model. -/
def noww : PyDateTime := ⟨2025, 1, 2, 3, 4, 5, 0⟩

/-- Shared helper: whatever happens inside its `try:` body, `log_event`
finishes with a normal return. -/
theorem log_event_run_ok (L : LoggerState) (now : PyDateTime)
    (event_type content : String) (metadata : Option (List (PyKey × PyVal)))
    (level : String) :
    ∃ out, log_event_run L now event_type content metadata level = Except.ok out := by
  cases h : log_event_try L now event_type content metadata level with
  | ok out => exact ⟨out, by unfold log_event_run; rw [h]⟩
  | error e => exact ⟨_, by unfold log_event_run; rw [h]⟩

end StreamlitLog

namespace StreamlitLog

/-- C1: for every pair of input strings, every optional metadata mapping
and every level string, `log_event` returns normally — the surrounding
`try/except` downgrades any internal failure (non-severity `level`
dispatch, serialization trouble, unavailable file sink) to degraded
diagnostic output, and never propagates an exception to the caller. -/
theorem c1_log_event_never_raises (L : LoggerState) (now : PyDateTime)
    (event_type content : String) (metadata : Option (List (PyKey × PyVal)))
    (level : String) :
    ∃ out, log_event_run L now event_type content metadata level = Except.ok out :=
  log_event_run_ok L now event_type content metadata level

/-- C3: serialization never raises.  A successfully encoded record dumps
to its rendering; a record the encoder rejects dumps to the rendering of
the minimal fallback `{'error': 'JSON serialization failed', 'message':
str(e)}`; and at field level, a datetime encodes as its ISO string, any
other foreign object as its `str()`, and an object whose `str()` raises
as the literal `"<not serializable>"`. -/
theorem c3_safe_serialization (data : PyVal) :
    (∀ j, jsonOfPyVal data = Except.ok j → _safe_json_dump data = Json.render j)
    ∧ (∀ e, jsonOfPyVal data = Except.error e →
        _safe_json_dump data =
          Json.render (Json.obj [("error", Json.str "JSON serialization failed"),
                                 ("message", Json.str e)]))
    ∧ (∀ iso, jsonOfPyVal (PyVal.datetime iso) = Except.ok (Json.str iso))
    ∧ (∀ s, jsonOfPyVal (PyVal.obj (Option.some s)) = Except.ok (Json.str s))
    ∧ jsonOfPyVal (PyVal.obj Option.none) =
        Except.ok (Json.str "<not serializable>") := by
  refine ⟨?_, ?_, fun iso => rfl, fun s => rfl, rfl⟩
  · intro j h
    unfold _safe_json_dump
    rw [h]
  · intro e h
    unfold _safe_json_dump
    rw [h]

/-- Witness for C3 at concrete inputs: a dictionary with a tuple key is
rejected by the encoder, and `_safe_json_dump` emits the minimal fallback
record for it. -/
theorem c3_safe_serialization_witness :
    _safe_json_dump (PyVal.dict [(PyKey.bad "tuple", PyVal.str "x")]) =
      Json.render (Json.obj
        [("error", Json.str "JSON serialization failed"),
         ("message", Json.str "keys must be str, int, float, bool or None, not tuple")]) :=
  (c3_safe_serialization (PyVal.dict [(PyKey.bad "tuple", PyVal.str "x")])).2.1
    "keys must be str, int, float, bool or None, not tuple" rfl

/-- C7: `log_user_action` produces exactly the output of `log_event`
called with `event_type='user_action'`, `content=action_type` and the
metadata `{'user_id': ..., 'session_id': ..., 'details': details or {}}`,
and it returns normally on every input. -/
theorem c7_user_action_delegates (L : LoggerState) (now : PyDateTime)
    (action_type user_id session_id : String)
    (details : Option (List (PyKey × PyVal))) :
    log_user_action_run L now action_type user_id session_id details =
      log_event_run L now "user_action" action_type
        (Option.some (uaMetadata user_id session_id details)) "info"
    ∧ ∃ out, log_user_action_run L now action_type user_id session_id details =
        Except.ok out := by
  obtain ⟨out, hout⟩ :=
    log_event_run_ok L now "user_action" action_type
      (Option.some (uaMetadata user_id session_id details)) "info"
  constructor
  · unfold log_user_action_run
    rw [hout]
  · exact ⟨out, by unfold log_user_action_run; rw [hout]⟩

/-- Shared helper: every line dispatched through the logger carries the
dispatch severity and is the formatter's wrapping of the message. -/
theorem mem_loggerEmit {L : LoggerState} {now : PyDateTime} {sev : Nat}
    {msg : String} {e : Emitted} (he : e ∈ loggerEmit L now sev msg) :
    e.sev = sev ∧ e.text = formatLine now (levelName sev) L.name msg := by
  unfold loggerEmit at he
  split at he
  · rw [List.mem_filterMap] at he
    obtain ⟨h, _, heq⟩ := he
    cases h with
    | file w =>
        cases w
        · exact Option.noConfusion heq
        · injection heq with h2
          subst h2
          exact ⟨rfl, rfl⟩
    | console =>
        injection heq with h2
        subst h2
        exact ⟨rfl, rfl⟩
  · exact absurd he (List.not_mem_nil e)

/-- C4 fails as stated: the source contains no `"<trace unavailable>"`
fallback.  When trace capture (`traceback.format_exc()`, line 91) itself
raises, the `except` arm of `log_error` (lines 163-165) swallows the
exception and only prints a console diagnostic — no record at all is
emitted, so in particular no record containing `"<trace unavailable>"`. -/
theorem c4_no_trace_unavailable_marker :
    log_error_run Lw noww ⟨"RuntimeError", "boom"⟩ "ctx" Option.none
        (Except.error (.runtimeError "trace capture failed")) =
      Except.ok ⟨[], ["Critical error logging failure: trace capture failed"]⟩ := rfl

/-- C4 amended: when trace capture succeeds and the metadata serializes,
`log_error` emits at severity ERROR a record with `event_type = "error"`,
`content = context` and an `error` field holding the exception's type
name, message and the captured traceback string; when trace capture
raises, no record is emitted — the call still returns normally, printing
only a console diagnostic. -/
theorem c4_log_error_record_shape (L : LoggerState) (now : PyDateTime)
    (exc : PyExc) (context : String) (md : Option (List (PyKey × PyVal)))
    (mj : List (String × Json)) (tb : String)
    (hmj : jsonOfEntries (md.getD []) = Except.ok mj) :
    (∃ out, log_error_run L now exc context md (Except.ok tb) = Except.ok out
      ∧ ∀ e ∈ out.emitted,
          e.sev = 40 ∧
          e.text = formatLine now "ERROR" L.name (Json.render (Json.obj
            [("timestamp", Json.str now.isoformat),
             ("event_type", Json.str "error"),
             ("content", Json.str context),
             ("metadata", Json.obj mj),
             ("error", Json.obj
               [("type", Json.str exc.tyName),
                ("message", Json.str exc.msg),
                ("traceback", Json.str tb)])])))
    ∧ ∀ err : PyErr,
        log_error_run L now exc context md (Except.error err) =
          Except.ok ⟨[], ["Critical error logging failure: " ++ err.str]⟩ := by
  constructor
  · have hmsg : _safe_json_dump (PyVal.dict
        ([(PyKey.str "timestamp", PyVal.str now.isoformat),
          (PyKey.str "event_type", PyVal.str "error"),
          (PyKey.str "content", PyVal.str context),
          (PyKey.str "metadata", PyVal.dict (md.getD []))] ++
         [(PyKey.str "error", PyVal.dict
            [(PyKey.str "type", PyVal.str exc.tyName),
             (PyKey.str "message", PyVal.str exc.msg),
             (PyKey.str "traceback", PyVal.str tb)])])) =
        Json.render (Json.obj
          [("timestamp", Json.str now.isoformat),
           ("event_type", Json.str "error"),
           ("content", Json.str context),
           ("metadata", Json.obj mj),
           ("error", Json.obj
             [("type", Json.str exc.tyName),
              ("message", Json.str exc.msg),
              ("traceback", Json.str tb)])]) := by
      unfold _safe_json_dump
      simp [jsonOfPyVal, jsonOfEntries, hmj]
    refine ⟨_, rfl, ?_⟩
    intro e he
    have he2 : e ∈ loggerEmit L now 40 (_safe_json_dump (PyVal.dict
        ([(PyKey.str "timestamp", PyVal.str now.isoformat),
          (PyKey.str "event_type", PyVal.str "error"),
          (PyKey.str "content", PyVal.str context),
          (PyKey.str "metadata", PyVal.dict (md.getD []))] ++
         [(PyKey.str "error", PyVal.dict
            [(PyKey.str "type", PyVal.str exc.tyName),
             (PyKey.str "message", PyVal.str exc.msg),
             (PyKey.str "traceback", PyVal.str tb)])]))) := he
    have h2 := mem_loggerEmit he2
    rw [hmsg] at h2
    exact h2
  · intro err
    rfl

/-- Witness for the amended C4 at a concrete call. -/
theorem c4_log_error_record_shape_witness :
    ∃ out, log_error_run Lw noww ⟨"ValueError", "bad input"⟩ "code_analysis"
        Option.none (Except.ok "Traceback (most recent call last): boom") =
          Except.ok out
      ∧ ∀ e ∈ out.emitted,
          e.sev = 40 ∧
          e.text = formatLine noww "ERROR" "CodeWizard" (Json.render (Json.obj
            [("timestamp", Json.str (PyDateTime.isoformat noww)),
             ("event_type", Json.str "error"),
             ("content", Json.str "code_analysis"),
             ("metadata", Json.obj []),
             ("error", Json.obj
               [("type", Json.str "ValueError"),
                ("message", Json.str "bad input"),
                ("traceback",
                 Json.str "Traceback (most recent call last): boom")])])) :=
  (c4_log_error_record_shape Lw noww ⟨"ValueError", "bad input"⟩ "code_analysis"
    Option.none [] "Traceback (most recent call last): boom" rfl).1

/-- C5 fails as stated: `os.makedirs(log_dir, exist_ok=True)` (line 34)
runs outside any `try`, so when directory creation itself fails (e.g.,
read-only parent), `__init__` raises instead of falling back. -/
theorem c5_makedirs_failure_raises :
    init_run ⟨true, false⟩ 20 Lw =
      Except.error (PyErr.osError "cannot create log directory: permission denied") :=
  rfl

/-- C5 amended: whenever the log-directory creation succeeds,
construction returns normally; a failure while attaching the file sink
(lines 50-70) degrades to console-only handlers instead of raising.
Only a directory-creation failure propagates. -/
theorem c5_console_fallback (env : InitEnv) (lvl : Nat) (prev : LoggerState)
    (h : env.makedirsFails = false) :
    init_run env lvl prev = Except.ok
      ⟨prev.name, lvl,
       if env.fileSetupFails then [Handler.console]
       else [Handler.file true, Handler.console]⟩ := by
  cases hf : env.fileSetupFails <;> simp [init_run, h, hf]

/-- Witness for the amended C5: a failing file sink still yields a
usable console-only logger. -/
theorem c5_console_fallback_witness :
    init_run ⟨false, true⟩ 20 Lw =
      Except.ok ⟨"CodeWizard", 20, [Handler.console]⟩ :=
  c5_console_fallback ⟨false, true⟩ 20 Lw rfl

/-- C8 fails as stated: `"exception"` is not one of the five recognized
severity names, yet `getattr(self.logger, "exception", self.logger.info)`
finds `Logger.exception`, which logs at severity ERROR (40) — not at the
default informational severity (20) the claim requires. -/
theorem c8_exception_level_not_info :
    ∃ out, log_event_run Lw noww "evt" "payload" Option.none "exception" =
        Except.ok out
      ∧ out.emitted.map Emitted.sev = [40, 40]
      ∧ (40 : Nat) ≠ 20 := by
  refine ⟨_, rfl, by decide, by decide⟩

/-- C8 amended: for every level string whose lowercased form is not an
attribute of the underlying logger at all, the `getattr` default applies
and `log_event` behaves exactly as with `level='info'` — no exception,
and the record is written at the informational severity.  (Level strings
that do name another logger attribute — `exception`, `warn`, `fatal`, or
non-callable data attributes — dispatch at that attribute's severity or
take the fallback path instead, still without raising.) -/
theorem c8_unknown_level_defaults_to_info (L : LoggerState) (now : PyDateTime)
    (event_type content : String) (md : Option (List (PyKey × PyVal)))
    (level : String) (h : getattrLogger (pyLower level) = LoggerAttr.absent) :
    log_event_run L now event_type content md level =
      log_event_run L now event_type content md "info" := by
  unfold log_event_run log_event_try
  simp only [h]
  rfl

/-- Witness for the amended C8: `"LOUD"` names no logger attribute, so
the call is identical to an `'info'` call. -/
theorem c8_unknown_level_defaults_to_info_witness :
    log_event_run Lw noww "evt" "payload" Option.none "LOUD" =
      log_event_run Lw noww "evt" "payload" Option.none "info" :=
  c8_unknown_level_defaults_to_info Lw noww "evt" "payload" Option.none "LOUD" rfl

/-- Shared helper: one rotating write keeps the backup count bounded. -/
theorem rotWrite_backups_le (cfg : RotConfig) (st : RotState) (line : String)
    (h : st.backups.length ≤ cfg.backupCount) :
    (rotWrite cfg st line).backups.length ≤ cfg.backupCount := by
  unfold rotWrite
  split
  · exact List.length_take_le _ _
  · exact h

/-- C6: rotation preserves the bound on archives.  A write that would
push the active file past the size bound starts a fresh active file
holding just that write and archives the previous active file at the head
of the backups, truncating to the configured count (oldest dropped); and
along any sequence of writes the number of backups never exceeds the
configured count. -/
theorem c6_rotation_bounded (cfg : RotConfig) (st : RotState) (line : String)
    (h : st.backups.length ≤ cfg.backupCount) :
    ((rotWrite cfg st line).backups.length ≤ cfg.backupCount
      ∧ (0 < cfg.maxBytes → cfg.maxBytes < st.active.length + line.length →
          (rotWrite cfg st line).active = line ∧
          (rotWrite cfg st line).backups =
            (st.active :: st.backups).take cfg.backupCount))
    ∧ ∀ lines : List String,
        (rotWriteAll cfg st lines).backups.length ≤ cfg.backupCount := by
  constructor
  · constructor
    · exact rotWrite_backups_le cfg st line h
    · intro h1 h2
      unfold rotWrite
      split
      · exact ⟨rfl, rfl⟩
      · rename_i hcond
        exact absurd ⟨h1, h2⟩ hcond
  · have key : ∀ (ls : List String) (s : RotState),
        s.backups.length ≤ cfg.backupCount →
        (rotWriteAll cfg s ls).backups.length ≤ cfg.backupCount := by
      intro ls
      induction ls with
      | nil => exact fun s hs => hs
      | cons l t ih =>
          exact fun s hs => ih (rotWrite cfg s l) (rotWrite_backups_le cfg s l hs)
    exact fun lines => key lines st h

/-- Witness for C6 at a concrete overflowing write. -/
theorem c6_rotation_bounded_witness :
    (rotWrite ⟨10, 2⟩ ⟨"12345678", ["b1"]⟩ "abcdef").backups.length ≤ 2
    ∧ (rotWrite ⟨10, 2⟩ ⟨"12345678", ["b1"]⟩ "abcdef").active = "abcdef"
    ∧ (rotWrite ⟨10, 2⟩ ⟨"12345678", ["b1"]⟩ "abcdef").backups = ["12345678", "b1"]
    ∧ (rotWriteAll ⟨10, 2⟩ ⟨"12345678", ["b1"]⟩
        ["abcdef", "xy", "0123456789AB"]).backups.length ≤ 2 :=
  have h := c6_rotation_bounded ⟨10, 2⟩ ⟨"12345678", ["b1"]⟩ "abcdef" (by decide)
  ⟨h.1.1, (h.1.2 (by decide) (by decide)).1, (h.1.2 (by decide) (by decide)).2,
   h.2 ["abcdef", "xy", "0123456789AB"]⟩

/-- Shared helper: allocation does not disturb existing addresses. -/
theorem heap_get_alloc (h : Heap) (d : List (String × HVal)) (a : Nat)
    (ha : a < h.cells.length) : ((h.alloc d).1).get a = h.get a := by
  unfold Heap.alloc Heap.get
  exact List.getElem?_append_left ha

/-- Shared helper: a `d[k] = v` on one address leaves the others alone. -/
theorem heap_get_setItem_ne (h : Heap) (b : Nat) (k : String) (v : HVal)
    (a : Nat) (hab : b ≠ a) : (h.setItem b k v).get a = h.get a := by
  unfold Heap.setItem Heap.get
  exact List.getElem?_set_ne hab

/-- Shared helper: allocation grows the heap by one cell. -/
theorem heap_alloc_length (h : Heap) (d : List (String × HVal)) :
    ((h.alloc d).1).cells.length = h.cells.length + 1 := by
  simp [Heap.alloc]

/-- Shared helper: evaluating `metadata or {}` reads the caller's
dictionary but never writes to any existing address. -/
theorem metaOrEmpty_get (h : Heap) (ma : Option Nat) (a : Nat)
    (ha : a < h.cells.length) : (metaOrEmpty h ma).1.get a = h.get a := by
  cases ma with
  | none => exact heap_get_alloc h [] a ha
  | some m =>
      simp only [metaOrEmpty]
      split
      · exact heap_get_alloc h [] a ha
      · rfl

/-- Shared helper: evaluating `metadata or {}` never shrinks the heap. -/
theorem metaOrEmpty_length (h : Heap) (ma : Option Nat) :
    h.cells.length ≤ (metaOrEmpty h ma).1.cells.length := by
  cases ma with
  | none =>
      show h.cells.length ≤ ((h.alloc []).1).cells.length
      rw [heap_alloc_length]
      omega
  | some m =>
      simp only [metaOrEmpty]
      split
      · show h.cells.length ≤ ((h.alloc []).1).cells.length
        rw [heap_alloc_length]
        omega
      · exact Nat.le_refl _

/-- Shared helper: attaching the error dictionary writes only to the
record's address. -/
theorem attachError_get (h : Heap) (logAddr : Nat)
    (err : Option (PyExc × String)) (a : Nat) (hne : logAddr ≠ a)
    (ha : a < h.cells.length) :
    (attachError h logAddr err).1.get a = h.get a := by
  unfold attachError
  cases err with
  | none => rfl
  | some e =>
      rw [heap_get_setItem_ne _ _ _ _ _ hne]
      exact heap_get_alloc _ _ _ ha

/-- Shared helper: `_prepare_log_data` writes only to freshly allocated
addresses — every dictionary that existed before the call, in particular
the caller's metadata dictionary, is unchanged. -/
theorem prepare_heap_frame (h : Heap) (now : PyDateTime) (et c : String)
    (ma : Option Nat) (err : Option (PyExc × String)) (a : Nat)
    (ha : a < h.cells.length) :
    ((prepare_log_data_heap h now et c ma err).1).get a = h.get a := by
  have hlen := metaOrEmpty_length h ma
  refine Eq.trans (attachError_get _ _ _ _ ?_ ?_)
    (Eq.trans (heap_get_alloc _ _ _ ?_) (metaOrEmpty_get h ma a ha))
  · show (metaOrEmpty h ma).1.cells.length ≠ a
    omega
  · rw [heap_alloc_length]
    omega
  · omega

/-- C9: neither `log_event` nor `log_error` mutates the caller's metadata
dictionary — after either call the dictionary at the caller's address
holds exactly the entries it held before. -/
theorem c9_metadata_not_mutated (h : Heap) (now : PyDateTime)
    (event_type content context tb : String) (exc : PyExc) (a : Nat)
    (ha : a < h.cells.length) :
    (log_event_heap h now event_type content (Option.some a)).get a = h.get a
    ∧ (log_error_heap h now exc context (Option.some a) tb).get a = h.get a :=
  ⟨prepare_heap_frame h now event_type content (Option.some a) Option.none a ha,
   prepare_heap_frame h now "error" context (Option.some a)
     (Option.some (exc, tb)) a ha⟩

/-- Witness for C9 at a concrete one-dictionary heap. -/
theorem c9_metadata_not_mutated_witness :
    (log_event_heap ⟨[[("k", HVal.prim (PyVal.str "v"))]]⟩ noww "t" "c"
        (Option.some 0)).get 0 =
      (⟨[[("k", HVal.prim (PyVal.str "v"))]]⟩ : Heap).get 0
    ∧ (log_error_heap ⟨[[("k", HVal.prim (PyVal.str "v"))]]⟩ noww ⟨"E", "m"⟩
        "ctx" (Option.some 0) "tb").get 0 =
      (⟨[[("k", HVal.prim (PyVal.str "v"))]]⟩ : Heap).get 0 :=
  c9_metadata_not_mutated ⟨[[("k", HVal.prim (PyVal.str "v"))]]⟩ noww
    "t" "c" "ctx" "tb" ⟨"E", "m"⟩ 0 (by decide)

/-- C10: a completed construction leaves the logger of that name with
exactly one console handler and at most one file handler, whatever
handlers previous constructions had attached (line 41 clears them), and
consequently each event is handed at most once to each sink. -/
theorem c10_handler_reset_invariant (env : InitEnv) (lvl : Nat)
    (prev st : LoggerState) (hok : init_run env lvl prev = Except.ok st) :
    st.handlers.countP isConsoleH = 1
    ∧ st.handlers.countP isFileH ≤ 1
    ∧ ∀ (now : PyDateTime) (sev : Nat) (msg : String),
        (loggerEmit st now sev msg).countP (fun e => isConsoleH e.sink) ≤ 1
        ∧ (loggerEmit st now sev msg).countP (fun e => isFileH e.sink) ≤ 1 := by
  unfold init_run at hok
  split at hok
  · exact Except.noConfusion hok
  · split at hok
    · injection hok with hok
      subst hok
      refine ⟨rfl, Nat.zero_le 1, ?_⟩
      intro now sev msg
      unfold loggerEmit
      split
      · exact ⟨Nat.le_refl 1, Nat.zero_le 1⟩
      · exact ⟨Nat.zero_le 1, Nat.zero_le 1⟩
    · injection hok with hok
      subst hok
      refine ⟨rfl, Nat.le_refl 1, ?_⟩
      intro now sev msg
      unfold loggerEmit
      split
      · exact ⟨Nat.le_refl 1, Nat.le_refl 1⟩
      · exact ⟨Nat.zero_le 1, Nat.zero_le 1⟩

/-- Witness for C10 after a successful default construction. -/
theorem c10_handler_reset_invariant_witness :
    (LoggerState.handlers
        ⟨"CodeWizard", 20, [Handler.file true, Handler.console]⟩).countP
      isConsoleH = 1
    ∧ (LoggerState.handlers
        ⟨"CodeWizard", 20, [Handler.file true, Handler.console]⟩).countP
      isFileH ≤ 1 :=
  have h := c10_handler_reset_invariant ⟨false, false⟩ 20 Lw
    ⟨"CodeWizard", 20, [Handler.file true, Handler.console]⟩ rfl
  ⟨h.1, h.2.1⟩

end StreamlitLog
